import Mathlib

/-!
Shallow embedding of the overlay-coordination and query-state layer of the
wild-oasis repository, together with proofs and refutations of the frozen
claims about it.

Sources embedded:
* the `Menus` compound component (context with `openId`/`position`,
  `close`, `open` and `Toggle.handleClick`);
* the `useOutsideClick` hook;
* the shipped `useBookings` hook (`src/features/bookings/useBookings.js`)
  that reads `status` and `sotyBy` from the search params and assembles
  the query key `["bookings", filter, sortBy]`;
* the `SortBy` component's `handleChange`, which writes the `sortBy` key;
* the `getBookings` service function (try/catch around the store query);
* the pagination and prefetching versions of `useBookings` from the notes
  (`page` parsing with `Number`, `pageCount` from `Math.ceil`, the two
  conditional `prefetchQuery` calls).
-/

/-! ## Overlay registry (`Menus` component)

The component keeps `openId : string` (`""` means no menu open) and
`position : {x, y} | null` in React state.  `close` is
`() => setOpenId("")`, `open` is `setOpenId` itself, and
`Toggle.handleClick` first calls `setPosition` with the coordinates
computed from the trigger's bounding rect and then runs
`openId === "" || openId !== id ? open(id) : close()`. -/

/-- An on-screen coordinate pair, as stored by `setPosition`. -/
structure Position where
  x : Int
  y : Int
deriving DecidableEq, Repr

/-- The React state held by the `Menus` provider: `openId` (`""` = closed)
and the portal `position` (initially `null`). -/
structure MenusState where
  openId : String
  position : Option Position
deriving DecidableEq, Repr

/-- The provider's initial state: `useState("")` and `useState(null)`. -/
def MenusState.init : MenusState := { openId := "", position := none }

/-- `close = () => setOpenId("")`: resets `openId`, touches nothing else. -/
def MenusState.close (s : MenusState) : MenusState :=
  { s with openId := "" }

/-- `open = setOpenId`: sets `openId`, touches nothing else. -/
def MenusState.openMenu (id : String) (s : MenusState) : MenusState :=
  { s with openId := id }

/-- The position `Toggle.handleClick` computes from the trigger's bounding
rect: `x = window.innerWidth - width - x`, `y = y + height + 8`. -/
def computePosition (innerWidth rectX rectY width height : Int) : Position :=
  { x := innerWidth - width - rectX, y := rectY + height + 8 }

/-- `Toggle.handleClick`: `setPosition(pos)` followed by
`openId === "" || openId !== id ? open(id) : close()`.  `pos` stands for
the value produced by `computePosition` from the click's bounding rect. -/
def MenusState.toggle (id : String) (pos : Position) (s : MenusState) :
    MenusState :=
  let s1 := { s with position := some pos }
  if s1.openId = "" ∨ s1.openId ≠ id then s1.openMenu id else s1.close

/-- One user-visible operation on a `Menus` scope. -/
inductive MenuOp where
  | openOp (id : String)
  | closeOp
  | toggleOp (id : String) (pos : Position)
deriving DecidableEq, Repr

/-- Apply one operation to the registry state. -/
def MenusState.step (s : MenusState) : MenuOp → MenusState
  | MenuOp.openOp id => s.openMenu id
  | MenuOp.closeOp => s.close
  | MenuOp.toggleOp id pos => s.toggle id pos

/-- Run a sequence of operations from the initial provider state. -/
def MenusState.run (ops : List MenuOp) : MenusState :=
  ops.foldl MenusState.step MenusState.init

/-! ## Outside-interaction detector (`useOutsideClick` hook)

The hook's document-level listener runs
`if (ref.current && !ref.current.contains(event.target)) handler();`.
The DOM is modelled as a parent map over node identifiers; `Node.contains`
is the inclusive descendant-or-self test, computed along the parent chain
with explicit fuel (a DOM tree has finite depth). -/

/-- The parent relation of the document: each node's parent, `none` at a
root.  Nodes are identifiers, as DOM nodes compare by identity. -/
abbrev ParentMap := Nat → Option Nat

/-- The chain of ancestors of `n` (starting at `n` itself), followed for at
most `fuel` parent steps. -/
def ancestorChain (par : ParentMap) : Nat → Nat → List Nat
  | 0, n => [n]
  | fuel + 1, n =>
      n :: (match par n with
            | none => []
            | some p => ancestorChain par fuel p)

/-- `Node.contains`: `b.contains(t)` holds iff `b` is `t` itself or an
ancestor of `t` (the DOM containment test is inclusive). -/
def domContains (par : ParentMap) (fuel b t : Nat) : Bool :=
  (ancestorChain par fuel t).contains b

/-- The body of the hook's `handleClick` listener for one document-level
click: returns how often `handler` is invoked.  `refCurrent` is
`ref.current` (`none` models a null ref), `target` the event target. -/
def outsideClickInvocations (par : ParentMap) (fuel : Nat)
    (refCurrent : Option Nat) (target : Nat) : Nat :=
  match refCurrent with
  | none => 0
  | some b => if domContains par fuel b target then 0 else 1

/-! ## Addressable state (`URLSearchParams`)

Search params are an ordered list of key/value pairs.  `get` returns the
value of the first pair with the given key (`null` when absent); `set`
replaces every pair with that key by a single pair holding the new value.
The model below reproduces the behaviour observable through `get`. -/

/-- The query string as an ordered association list. -/
abbrev SearchParams := List (String × String)

/-- `searchParams.get(k)`: first value stored under `k`, `none` for null. -/
def getParam (ps : SearchParams) (k : String) : Option String :=
  (ps.find? (fun p => p.1 = k)).map Prod.snd

/-- `searchParams.set(k, v)`: drop every pair keyed `k`, record `(k, v)`. -/
def setParam (ps : SearchParams) (k v : String) : SearchParams :=
  ps.filter (fun p => p.1 ≠ k) ++ [(k, v)]

/-- JavaScript's `String.split` with a one-character separator: the list of
maximal separator-free pieces, with empty pieces kept (so the result is
never empty and `"".split(sep)` is `[""]`). -/
def splitOnChar (sep : Char) (s : String) : List String :=
  (s.toList.foldr
    (fun c acc =>
      if c = sep then [] :: acc
      else
        match acc with
        | [] => [[c]]
        | g :: gs => (c :: g) :: gs)
    [[]]).map (fun l => String.mk l)

/-- Parse an addressable state string such as
`"status=checked-in&sortBy=totalPrice-asc&page=3"` into search params:
split on `&`, then split each piece on `=` into key and value. -/
def parseQueryString (s : String) : SearchParams :=
  (splitOnChar '&' s).filterMap (fun kv =>
    match splitOnChar '=' kv with
    | [] => none
    | [k] => some (k, "")
    | k :: v :: _ => some (k, v))

/-! ## The shipped `useBookings` hook

`src/features/bookings/useBookings.js` reads the search params as follows:

```
const filterValue = searchParams.get("status");
const filter =
  !filterValue || filterValue === "all"
    ? null : { field: "status", value: filterValue };
const sortByRaw = searchParams.get("sotyBy") || "startDate-esc";
const [field, direcion] = sortByRaw.split("-");
const sortBy = { field, direcion };
... queryKey: ["bookings", filter, sortBy] ...
```

Note the hook reads the key `sotyBy` (the `SortBy` component writes
`sortBy`), the default is the string `"startDate-esc"`, the second
destructured name is `direcion`, and no `page` key is read. -/

/-- The filter object `{ field, value }` built by `useBookings`. -/
structure FilterObj where
  field : String
  value : String
deriving DecidableEq, Repr

/-- The sort object `{ field, direcion }` built by the shipped hook from
array destructuring of `split("-")`; a missing component is `undefined`,
modelled as `none`. -/
structure SortObj where
  field : Option String
  direcion : Option String
deriving DecidableEq, Repr

/-- `filter` as computed by `useBookings`: `null` when the `status` key is
absent, empty (falsy) or the sentinel `"all"`. -/
def useBookingsFilter (ps : SearchParams) : Option FilterObj :=
  match getParam ps "status" with
  | none => none
  | some v => if v = "" ∨ v = "all" then none else some ⟨"status", v⟩

/-- `sortByRaw` as computed by the shipped hook: the value of the `sotyBy`
key when present and truthy, otherwise the default `"startDate-esc"`. -/
def useBookingsSortByRaw (ps : SearchParams) : String :=
  match getParam ps "sotyBy" with
  | none => "startDate-esc"
  | some s => if s = "" then "startDate-esc" else s

/-- `sortBy` as computed by the shipped hook:
`const [field, direcion] = sortByRaw.split("-")`. -/
def useBookingsSortBy (ps : SearchParams) : SortObj :=
  let parts := splitOnChar '-' (useBookingsSortByRaw ps)
  ⟨parts.get? 0, parts.get? 1⟩

/-- The cache key: the query-key array `["bookings", filter, sortBy]`. -/
structure QueryKey where
  resource : String
  filter : Option FilterObj
  sortBy : SortObj
deriving DecidableEq, Repr

/-- Assembly of the query-key array from its parts, exactly as the hook
writes it: `["bookings", filter, sortBy]`. -/
def mkBookingsQueryKey (filter : Option FilterObj) (sortBy : SortObj) :
    QueryKey :=
  ⟨"bookings", filter, sortBy⟩

/-- The cache key the shipped `useBookings` builds from the current
search params. -/
def useBookingsQueryKey (ps : SearchParams) : QueryKey :=
  mkBookingsQueryKey (useBookingsFilter ps) (useBookingsSortBy ps)

/-! ## The `SortBy` encoder

`SortBy.handleChange` runs `searchParams.set("sortBy", event.target.value)`
and commits the updated params; the option values have the shape
`"<field>-<direction>"`. -/

/-- `SortBy.handleChange`: write the selected `"<field>-<direction>"`
value under the `sortBy` key of the current search params. -/
def sortByHandleChange (ps : SearchParams) (value : String) : SearchParams :=
  setParam ps "sortBy" value

/-! ## Spec-level descriptors, page parsing and the prefetch policy -/

/-- The spec's sort component `{ field, direction }`. -/
structure SortSpec where
  field : String
  direction : String
deriving DecidableEq, Repr

/-- The spec's `QueryDescriptor`: filter (or none), sort, page. -/
structure QueryDescriptor where
  filter : Option FilterObj
  sort : SortSpec
  page : Nat
deriving DecidableEq, Repr

/-- Value of a non-empty run of decimal digits; `none` when the characters
are not all digits (or the run is empty). -/
def parseDigits (cs : List Char) : Option Nat :=
  if cs ≠ [] ∧ cs.all (fun c => c.isDigit) then
    some (cs.foldl (fun n c => 10 * n + (c.toNat - 48)) 0)
  else none

/-- JavaScript's `Number` on the strings this layer meets: `""` is `0`, an
optionally `-`-signed string of decimal digits is its value, anything else
is `NaN` (`none`).  Fractional, exponent, hex and whitespace forms do not
occur in this layer and are outside the modelled domain. -/
def jsNumber (s : String) : Option Int :=
  match s.toList with
  | [] => some 0
  | '-' :: rest => (parseDigits rest).map (fun n => -(n : Int))
  | cs => (parseDigits cs).map (fun n => (n : Int))

/-- `page` as the pagination-era `useBookings` and `Pagination` compute it:
`!searchParams.get("page") ? 1 : Number(searchParams.get("page"))`.
The result is a JavaScript number, `none` standing for `NaN`. -/
def pageFromParams (ps : SearchParams) : Option Int :=
  match getParam ps "page" with
  | none => some 1
  | some s => if s = "" then some 1 else jsNumber s

/-- `PAGE_SIZE` from `utils/constants`. -/
def PAGE_SIZE : Nat := 10

/-- `Math.ceil(count / PAGE_SIZE)`: when `count` is still `undefined` the
division yields `NaN` (`none`); otherwise the rounded-up page count. -/
def pageCountOf (count : Option Nat) : Option Nat :=
  count.map (fun c => (c + PAGE_SIZE - 1) / PAGE_SIZE)

/-- The prefetch policy of the prefetching `useBookings`: the descriptors
handed to `prefetchQuery`, in program order.  The code runs
`if (page < pageCount) prefetch(page + 1)` and then
`if (page > 1) prefetch(page - 1)`; a comparison against an unknown
(`NaN`) page count is false. -/
def prefetchNeighbors (d : QueryDescriptor) (totalPages : Option Nat) :
    List QueryDescriptor :=
  (match totalPages with
   | some t => if d.page < t then [{ d with page := d.page + 1 }] else []
   | none => []) ++
  (if 1 < d.page then [{ d with page := d.page - 1 }] else [])

/-! ## The `getBookings` loader

```
export async function getBookings({ filter, sortBy }) {
  try {
    let query = supabase.from("bookings").select(...);
    if (filter !== null) query = query[filter.method || "eq"](...);
    if (sortBy) query = query.order(...);
    const { data, error } = await query;
    if (error) { console.log(error.message);
                 throw new Error("Bookings could not be loaded"); }
    return data;
  } catch (error) { toast.error(error.message); }
}
```

The embedding abstracts the store interaction into its outcome: either the
awaited query rejects, or it resolves to a `{ data, error }` pair.  The
returned `Except` is the promise handed back to the caller:
`Except.error` is a rejection, `Except.ok` a resolution (and `Except.ok
none` a resolution with `undefined`, the value of the implicit return at
the end of the `catch` block). -/

/-- The `{ data, error }` pair the store query resolves to. -/
structure SupaResponse where
  data : Option (List Nat)
  error : Option String
deriving DecidableEq, Repr

/-- `getBookings`, as a function of the store query's outcome.  A rejected
query is caught by the function's own `catch`, which toasts and falls off
the end (returning `undefined`); a resolved query with an `error` field
throws, which the same `catch` catches; otherwise `data` is returned. -/
def getBookings (query : Except String SupaResponse) :
    Except String (Option (List Nat)) :=
  match query with
  | Except.error _ => Except.ok none
  | Except.ok r =>
      match r.error with
      | some _ => Except.ok none
      | none => Except.ok r.data

/-! ## Helper lemmas -/

/-- `Toggle.handleClick` in closed form: the position is always replaced by
the freshly computed one, and the ternary decides the new `openId`. -/
theorem MenusState.toggle_eq (s : MenusState) (id : String) (pos : Position) :
    s.toggle id pos =
      if s.openId = "" ∨ s.openId ≠ id
      then { openId := id, position := some pos }
      else { openId := "", position := some pos } := by
  by_cases h : s.openId = "" ∨ s.openId ≠ id
  · simp only [MenusState.toggle, MenusState.openMenu, if_pos h]
  · simp only [MenusState.toggle, MenusState.close, if_neg h]

/-- Running one more operation is one more step. -/
theorem MenusState.run_append_one (ops : List MenuOp) (op : MenuOp) :
    MenusState.run (ops ++ [op]) = (MenusState.run ops).step op := by
  simp [MenusState.run, List.foldl_append]

/-! ## C5: toggle transitions -/

/-- C5 (counterexample): starting from the reachable state in which menu
`"m"` is already open, two successive `toggle("m")` calls do **not** return
the registry to `Closed` — the first closes it and the second reopens it. -/
theorem menus_toggle_twice_from_open :
    (((MenusState.run [MenuOp.toggleOp "m" ⟨1, 2⟩]).toggle "m" ⟨1, 2⟩).toggle
        "m" ⟨1, 2⟩).openId ≠ "" := by decide

/-- C5 (amended): `toggle(id, anchor)` closes the registry exactly when the
same non-empty id is already open and otherwise opens `id` at the fresh
anchor; two successive `toggle(id)` calls end `Closed` when the registry
was not already `Open(id, ·)`, and end `Open(id, ·)` again when it was. -/
theorem menus_toggle_characterization (s : MenusState) (id : String)
    (p1 p2 : Position) :
    (s.openId = id → id ≠ "" →
      s.toggle id p1 = { openId := "", position := some p1 }) ∧
    (s.openId ≠ id ∨ id = "" →
      s.toggle id p1 = { openId := id, position := some p1 }) ∧
    (s.openId ≠ id → ((s.toggle id p1).toggle id p2).openId = "") ∧
    (s.openId = id → id ≠ "" →
      ((s.toggle id p1).toggle id p2).openId = id) ∧
    (id = "" → ((s.toggle id p1).toggle id p2).openId = "") := by
  refine ⟨?_, ?_, ?_, ?_, ?_⟩
  · intro h hne
    rw [MenusState.toggle_eq]
    simp [h, hne]
  · intro h
    rcases h with h | h
    · rw [MenusState.toggle_eq]
      simp [h]
    · subst h
      rw [MenusState.toggle_eq]
      by_cases h0 : s.openId = "" <;> simp [h0]
  · intro h
    rw [MenusState.toggle_eq s id p1, if_pos (Or.inr h),
      MenusState.toggle_eq]
    by_cases h0 : id = "" <;> simp [h0]
  · intro h hne
    rw [MenusState.toggle_eq s id p1, if_neg (by simp [h, hne]),
      MenusState.toggle_eq]
    simp
  · intro h
    subst h
    rw [MenusState.toggle_eq s "" p1]
    by_cases h0 : s.openId = ""
    · rw [if_pos (Or.inl h0), MenusState.toggle_eq]
      simp
    · rw [if_pos (Or.inr h0), MenusState.toggle_eq]
      simp

/-- C5 (witness): from the initial (closed) registry, toggling `"m"` twice
ends `Closed`, and the single-toggle characterization holds there. -/
theorem menus_toggle_characterization_witness :
    MenusState.init.toggle "m" ⟨1, 2⟩ =
      { openId := "m", position := some ⟨1, 2⟩ } ∧
    ((MenusState.init.toggle "m" ⟨1, 2⟩).toggle "m" ⟨3, 4⟩).openId = "" :=
  ⟨(menus_toggle_characterization MenusState.init "m" ⟨1, 2⟩ ⟨3, 4⟩).2.1
      (Or.inl (by decide)),
   (menus_toggle_characterization MenusState.init "m" ⟨1, 2⟩ ⟨3, 4⟩).2.2.1
      (by decide)⟩

/-! ## C6: the openId/anchor invariant -/

/-- C6 (counterexample): the state reached by toggling menu `"m"` open and
then toggling it closed has `openId` empty yet a non-`none` position — the
claimed invariant fails on a reachable state, because `close` never resets
the stored position. -/
theorem menus_stale_anchor_after_close :
    (MenusState.run [MenuOp.toggleOp "m" ⟨1, 2⟩,
        MenuOp.toggleOp "m" ⟨1, 2⟩]).openId = "" ∧
    (MenusState.run [MenuOp.toggleOp "m" ⟨1, 2⟩,
        MenuOp.toggleOp "m" ⟨1, 2⟩]).position = some ⟨1, 2⟩ := by decide

/-- C6 (amended): closing always empties `openId` but leaves the stored
anchor/position exactly as it was — after any operation sequence, a final
`close` yields `openId = ""` while preserving the position, so a stale
anchor can remain behind. -/
theorem menus_close_keeps_position (ops : List MenuOp) :
    (MenusState.run (ops ++ [MenuOp.closeOp])).openId = "" ∧
    (MenusState.run (ops ++ [MenuOp.closeOp])).position =
      (MenusState.run ops).position := by
  rw [MenusState.run_append_one]
  exact ⟨rfl, rfl⟩

/-! ## C7: outside-click precision -/

/-- A node heads its own ancestor chain, whatever the fuel. -/
theorem ancestorChain_self_mem (par : ParentMap) (fuel n : Nat) :
    n ∈ ancestorChain par fuel n := by
  cases fuel <;> simp [ancestorChain]

/-- The DOM containment test is inclusive: every element contains itself. -/
theorem domContains_self (par : ParentMap) (fuel b : Nat) :
    domContains par fuel b b = true := by
  have h := ancestorChain_self_mem par fuel b
  simpa [domContains] using h

/-- C7: on a document-level click, the handler fires exactly once when a
boundary is registered and the target is outside it, never when the target
is the boundary itself (inclusive containment) or any contained node, and
never when no boundary is registered (null ref). -/
theorem outside_click_precision (par : ParentMap) (fuel : Nat) (b t : Nat) :
    outsideClickInvocations par fuel none t = 0 ∧
    outsideClickInvocations par fuel (some b) b = 0 ∧
    (domContains par fuel b t = true →
      outsideClickInvocations par fuel (some b) t = 0) ∧
    (domContains par fuel b t = false →
      outsideClickInvocations par fuel (some b) t = 1) := by
  refine ⟨rfl, ?_, ?_, ?_⟩
  · simp [outsideClickInvocations, domContains_self]
  · intro h
    simp [outsideClickInvocations, h]
  · intro h
    simp [outsideClickInvocations, h]

/-- C7 (witness): in the two-node document where node 2 is a child of the
boundary node 1 and node 3 is disjoint, a click on node 3 fires the
handler once and a click on node 2 does not fire it. -/
theorem outside_click_precision_witness :
    outsideClickInvocations (fun n => if n = 2 then some 1 else none) 5
        (some 1) 3 = 1 ∧
    outsideClickInvocations (fun n => if n = 2 then some 1 else none) 5
        (some 1) 2 = 0 :=
  ⟨(outside_click_precision (fun n => if n = 2 then some 1 else none)
      5 1 3).2.2.2 (by decide),
   (outside_click_precision (fun n => if n = 2 then some 1 else none)
      5 1 2).2.2.1 (by decide)⟩

/-! ## C1: cache-key equality is structural -/

/-- C1: two separately constructed descriptor components with the same
filter field/value, the same sort field/direction and the same page yield
equal query keys — key equality depends only on the field values, never on
object identity (object identity does not exist in the embedding; the key
is determined componentwise). -/
theorem bookings_cache_key_structural (f1 f2 : Option FilterObj)
    (s1 s2 : SortObj) (p1 p2 : Nat)
    (hff : f1.map FilterObj.field = f2.map FilterObj.field)
    (hfv : f1.map FilterObj.value = f2.map FilterObj.value)
    (hsf : s1.field = s2.field) (hsd : s1.direcion = s2.direcion)
    (_hp : p1 = p2) :
    mkBookingsQueryKey f1 s1 = mkBookingsQueryKey f2 s2 := by
  have hf : f1 = f2 := by
    cases f1 with
    | none =>
        cases f2 with
        | none => rfl
        | some b => simp at hff
    | some a =>
        cases f2 with
        | none => simp at hff
        | some b =>
            cases a
            cases b
            simp_all
  have hs : s1 = s2 := by
    cases s1
    cases s2
    simp_all
  rw [hf, hs]

/-- C1 (witness): the spec's example — the `"bookings"` key for filter
`status=checked-in`, sort `startDate-desc`, page 2, built twice. -/
theorem bookings_cache_key_structural_witness :
    mkBookingsQueryKey (some ⟨"status", "checked-in"⟩)
        ⟨some "startDate", some "desc"⟩ =
      mkBookingsQueryKey (some ⟨"status", "checked-in"⟩)
        ⟨some "startDate", some "desc"⟩ :=
  bookings_cache_key_structural (some ⟨"status", "checked-in"⟩)
    (some ⟨"status", "checked-in"⟩) ⟨some "startDate", some "desc"⟩
    ⟨some "startDate", some "desc"⟩ 2 2 rfl rfl rfl rfl rfl

/-! ## C10: the shipped key has no page component -/

/-- `set` on one key leaves `get` of every other key unchanged. -/
theorem getParam_setParam_ne (ps : SearchParams) (k k' v : String)
    (h : k' ≠ k) : getParam (setParam ps k v) k' = getParam ps k' := by
  unfold getParam setParam
  rw [List.find?_append]
  have hsingle : List.find? (fun p => decide (p.1 = k')) [(k, v)] = none := by
    simp [List.find?, Ne.symm h]
  rw [hsingle, Option.or_none, List.find?_filter]
  have hpred : (fun a : String × String =>
      decide (decide (a.1 ≠ k) = true ∧ decide (a.1 = k') = true)) =
      (fun p : String × String => decide (p.1 = k')) := by
    funext a
    by_cases ha : a.1 = k'
    · have hk : ¬a.1 = k := fun hc => h (ha.symm.trans hc)
      simp [ha, hk, h]
    · simp [ha]
  rw [hpred]

/-- C10: the query key the shipped `useBookings` builds reads only the
`status` and `sotyBy` keys — it has no page component, so search params
that differ only in the value stored under `page` produce one and the
same cache key: every page of the list shares one cache identity. -/
theorem useBookings_key_ignores_page (ps : SearchParams) (v1 v2 : String) :
    useBookingsQueryKey (setParam ps "page" v1) =
      useBookingsQueryKey (setParam ps "page" v2) := by
  unfold useBookingsQueryKey useBookingsFilter useBookingsSortBy
    useBookingsSortByRaw
  rw [getParam_setParam_ne ps "page" "status" v1 (by decide),
    getParam_setParam_ne ps "page" "sotyBy" v1 (by decide),
    getParam_setParam_ne ps "page" "status" v2 (by decide),
    getParam_setParam_ne ps "page" "sotyBy" v2 (by decide)]

/-! ## C2: the codec round-trip is broken in the shipped code -/

/-- C2: the `SortBy` encoder writes the chosen `"<field>-<direction>"`
value under the key `sortBy`, but the shipped decoder reads the key
`sotyBy` and so falls back to its default `"startDate-esc"`: decoding the
encoding of the sort `totalPrice-asc` yields the (typo-ridden) default
`{field: "startDate", direcion: "esc"}` instead of the encoded sort, so
`decode(encode(d)) ≠ d` for every descriptor with a non-default sort. -/
theorem sortBy_roundtrip_lost :
    useBookingsSortBy (sortByHandleChange [] "totalPrice-asc") =
      ⟨some "startDate", some "esc"⟩ ∧
    useBookingsSortBy (sortByHandleChange [] "totalPrice-asc") ≠
      ⟨some "totalPrice", some "asc"⟩ := by
  constructor
  · rfl
  · decide

/-! ## C3: decoding the example addressable state string -/

/-- C3: the shipped decoder applied to
`"status=checked-in&sortBy=totalPrice-asc&page=3"` reads the filter
correctly but — because it reads the key `sotyBy`, not `sortBy` — decodes
the sort to the default `{field: "startDate", direcion: "esc"}` rather
than `{field: "totalPrice", direction: "asc"}` (and it reads no `page`
key at all: the assembled query key has no page component). -/
theorem decode_example_state_shipped :
    useBookingsFilter
        (parseQueryString "status=checked-in&sortBy=totalPrice-asc&page=3") =
      some ⟨"status", "checked-in"⟩ ∧
    useBookingsSortBy
        (parseQueryString "status=checked-in&sortBy=totalPrice-asc&page=3") =
      ⟨some "startDate", some "esc"⟩ ∧
    useBookingsQueryKey
        (parseQueryString "status=checked-in&sortBy=totalPrice-asc&page=3") =
      ⟨"bookings", some ⟨"status", "checked-in"⟩,
        ⟨some "startDate", some "esc"⟩⟩ := by
  refine ⟨rfl, rfl, rfl⟩

/-! ## C4: a failed load is swallowed, not surfaced -/

/-- C4: `getBookings` never rejects — its `catch` block toasts the error
and falls off the end, so a store error (or a rejected query) resolves the
returned promise successfully with `undefined`; the failure is not
surfaced to the awaiting caller and the cache entry is recorded as a
success, contradicting the claimed failure semantics. -/
theorem getBookings_never_rejects :
    getBookings (Except.ok ⟨none, some "db error"⟩) = Except.ok none ∧
    getBookings (Except.error "network down") = Except.ok none ∧
    ∀ q : Except String SupaResponse,
      ∃ v, getBookings q = Except.ok v := by
  refine ⟨rfl, rfl, ?_⟩
  intro q
  match q with
  | Except.error _ => exact ⟨none, rfl⟩
  | Except.ok r =>
      match h : r.error with
      | some _ => exact ⟨none, by simp [getBookings, h]⟩
      | none => exact ⟨r.data, by simp [getBookings, h]⟩

/-! ## C8: the prefetch neighbor policy -/

/-- C8 (counterexample): with the current page at 2, the previous page is
prefetched even when the total page count is unknown (`count` still
`undefined`) and even when it is 1 — the `page > 1` guard never consults
`pageCount`, so the neighbor list is not empty there as claimed. -/
theorem prefetch_not_empty_when_unknown :
    prefetchNeighbors ⟨none, ⟨"startDate", "desc"⟩, 2⟩ none ≠ [] ∧
    prefetchNeighbors ⟨none, ⟨"startDate", "desc"⟩, 2⟩ (some 1) =
      [⟨none, ⟨"startDate", "desc"⟩, 1⟩] := by decide

/-- C8 (amended): the neighbor list contains the `page - 1` descriptor
exactly when `page > 1` — independently of `totalPages` — and the
`page + 1` descriptor exactly when `totalPages` is known and
`page < totalPages`; it is empty exactly when `page ≤ 1` and no known
`totalPages` exceeds `page`; and every listed neighbor keeps the filter
and sort of the input descriptor. -/
theorem prefetch_neighbors_characterization (d : QueryDescriptor)
    (tp : Option Nat) :
    ({ d with page := d.page - 1 } ∈ prefetchNeighbors d tp ↔
      1 < d.page) ∧
    ({ d with page := d.page + 1 } ∈ prefetchNeighbors d tp ↔
      ∃ t, tp = some t ∧ d.page < t) ∧
    (prefetchNeighbors d tp = [] ↔
      d.page ≤ 1 ∧ ∀ t, tp = some t → t ≤ d.page) ∧
    (∀ e ∈ prefetchNeighbors d tp, e.filter = d.filter ∧ e.sort = d.sort) := by
  have hne : d.page + 1 ≠ d.page - 1 := by omega
  have hne' : d.page - 1 ≠ d.page + 1 := by omega
  refine ⟨?_, ?_, ?_, ?_⟩
  · cases tp with
    | none => by_cases h1 : 1 < d.page <;> simp [prefetchNeighbors, h1, hne']
    | some t =>
        by_cases ht : d.page < t <;> by_cases h1 : 1 < d.page <;>
          simp [prefetchNeighbors, ht, h1, hne']
  · cases tp with
    | none => by_cases h1 : 1 < d.page <;> simp [prefetchNeighbors, h1, hne]
    | some t =>
        by_cases ht : d.page < t <;> by_cases h1 : 1 < d.page <;>
          simp [prefetchNeighbors, ht, h1, hne]
  · cases tp with
    | none =>
        by_cases h1 : 1 < d.page <;> (simp [prefetchNeighbors, h1]; all_goals omega)
    | some t =>
        by_cases ht : d.page < t <;> by_cases h1 : 1 < d.page <;>
          (simp [prefetchNeighbors, ht, h1]; all_goals omega)
  · intro e he
    have hcases : e = { d with page := d.page + 1 } ∨
        e = { d with page := d.page - 1 } := by
      cases tp with
      | none =>
          by_cases h1 : 1 < d.page <;>
            (simp [prefetchNeighbors, h1] at he; all_goals tauto)
      | some t =>
          by_cases ht : d.page < t <;> by_cases h1 : 1 < d.page <;>
            (simp [prefetchNeighbors, ht, h1] at he; all_goals tauto)
    rcases hcases with h | h <;> subst h <;> exact ⟨rfl, rfl⟩

/-- C8 (witness): at the spec's example — filter none, sort
`startDate-desc`, page 1, five pages — page 2 is a listed neighbor, and
with an unknown page count the neighbor list from page 1 is empty. -/
theorem prefetch_neighbors_characterization_witness :
    (⟨none, ⟨"startDate", "desc"⟩, 2⟩ : QueryDescriptor) ∈
      prefetchNeighbors ⟨none, ⟨"startDate", "desc"⟩, 1⟩ (some 5) ∧
    prefetchNeighbors ⟨none, ⟨"startDate", "desc"⟩, 1⟩ none = [] := by
  constructor
  · exact ((prefetch_neighbors_characterization
      ⟨none, ⟨"startDate", "desc"⟩, 1⟩ (some 5)).2.1).mpr
      ⟨5, rfl, by decide⟩
  · exact ((prefetch_neighbors_characterization
      ⟨none, ⟨"startDate", "desc"⟩, 1⟩ none).2.2.1).mpr
      ⟨by decide, fun t ht => by cases ht⟩

/-! ## C9: page decoding -/

/-- C9 (counterexample): a non-numeric `page` value does not fall back to
1 — `Number("abc")` is `NaN`, so the decoded page is `NaN`, not 1. -/
theorem page_decode_nan :
    pageFromParams [("page", "abc")] ≠ some 1 ∧
    pageFromParams [("page", "abc")] = none := by decide

/-- C9 (amended): the decoded page is 1 when the `page` key is absent or
holds the empty string; for any other value `s` it is `Number(s)` — the
numeric value for numeric strings (with no clamping to ≥ 1) and `NaN`,
not 1, for non-numeric ones. -/
theorem page_decode_characterization (ps : SearchParams) :
    (getParam ps "page" = none → pageFromParams ps = some 1) ∧
    (getParam ps "page" = some "" → pageFromParams ps = some 1) ∧
    (∀ s, getParam ps "page" = some s → s ≠ "" →
      pageFromParams ps = jsNumber s) := by
  refine ⟨?_, ?_, ?_⟩
  · intro h
    simp [pageFromParams, h]
  · intro h
    simp [pageFromParams, h]
  · intro s h hs
    simp [pageFromParams, h, hs]

/-- C9 (witness): `?page=3` decodes to page 3. -/
theorem page_decode_characterization_witness :
    pageFromParams [("page", "3")] = some 3 :=
  ((page_decode_characterization [("page", "3")]).2.2 "3" rfl
    (by decide)).trans (by decide)
